import Mathlib

/-!
Shallow embedding of the musicgen-docker inference services.

The repository exposes three generation endpoints:
* `generate` in `src/modal_service.py` (AudioCraft MusicGen, pydantic-validated
  request, in-memory WAV encoding, base64 response);
* `generate_music` in `src/production_service.py` (HF Transformers MusicGen,
  pydantic-validated request, fixed sampling parameters);
* `generate_music` in `src/music_generation.py` (AudioCraft MusicGen, an
  unvalidated `MusicGenerationRequest`, temp-file WAV save and optional R2
  upload, URL-only response).

Waveforms are embedded as lists of rationals (PCM samples), responses as
association lists of JSON keys and values, and the external collaborators
(model load, generation, disk save, upload) as boolean outcome flags in an
environment record.  Each endpoint is a pure function from its request and
environment to a run record that carries the JSON response together with the
observable effects the claims talk about: how many model loads were executed,
which model name was resolved, what samples were encoded at which sample
rate, and whether a temporary file was created and left behind.
-/

/-- JSON values as they occur in the services' response bodies.  A base64
encoded WAV payload is represented abstractly by the samples and the sample
rate that `torchaudio.save` serialized. -/
inductive JVal where
| s : String → JVal
| num : ℚ → JVal
| b : Bool → JVal
| null : JVal
| audio : List ℚ → ℕ → JVal
deriving DecidableEq, Repr

/-- A JSON object: ordered association list of keys and values. -/
def JObj : Type := List (String × JVal)

instance : DecidableEq JObj := by
unfold JObj
infer_instance

instance : Repr JObj := by
unfold JObj
infer_instance

/-- The keys of a JSON object, in order. -/
def jKeys (o : JObj) : List String := o.map Prod.fst

/-- Field lookup in a JSON object. -/
def jLookup (o : JObj) (k : String) : Option JVal := List.lookup k o

/-- An untyped request payload (`request_data: Dict`) as received by the
`modal_service.generate` and `production_service.generate_music` endpoints:
every field may be present or absent.  Fields a given endpoint's pydantic
model does not declare are ignored by it (pydantic v2 default). -/
structure RawRequest where
  prompt : Option String := none
  duration : Option ℚ := none
  temperature : Option ℚ := none
  cfg_coef : Option ℚ := none
  top_k : Option ℤ := none
  top_p : Option ℚ := none
  model_size : Option String := none
  output_filename : Option String := none
deriving DecidableEq, Repr

/-- `modal_service.py` `GenerateRequest` after successful pydantic validation. -/
structure GenerateRequest where
  prompt : String
  duration : ℚ
  temperature : ℚ
  cfg_coef : ℚ
  model_size : String
deriving DecidableEq, Repr

/-- `production_service.py` `GenerateRequest` after successful pydantic
validation; it declares only `prompt`, `duration` and `model_size`. -/
structure ProdRequest where
  prompt : String
  duration : ℚ
  model_size : String
deriving DecidableEq, Repr

/-- `music_generation.py` `MusicGenerationRequest`: FastAPI-parsed body with
optional fields and defaults, and no range, length or pattern constraint at
all (`prompt: str`, `duration: Optional[float] = 10.0`,
`model_size: Optional[str] = "medium"`, ...). -/
structure MusicGenerationRequest where
  prompt : String
  duration : ℚ := 10
  model_size : String := "medium"
  top_k : ℤ := 250
  top_p : ℚ := 0
  temperature : ℚ := 1
  cfg_coeff : ℚ := 3
  output_filename : Option String := none
deriving DecidableEq, Repr

/-- `music_generation.py` `MusicGenerationResponse` pydantic model. -/
structure MusicGenerationResponse where
  success : Bool
  audio_url : Option String := none
  filename : Option String := none
  duration : Option ℚ := none
  prompt : String
  error : Option String := none
deriving DecidableEq, Repr

/-- The `model_map` / `model_name_map` dictionaries shared by all services:
`{"small": "facebook/musicgen-small", "medium": "facebook/musicgen-medium",
"large": "facebook/musicgen-large"}`; `none` models a missing key. -/
def modelNameMap (s : String) : Option String :=
  if s = "small" then some "facebook/musicgen-small"
  else if s = "medium" then some "facebook/musicgen-medium"
  else if s = "large" then some "facebook/musicgen-large"
  else none

/-- Validation of `modal_service.GenerateRequest(**request_data)`:
`prompt: Field(..., min_length=1, max_length=500)`,
`duration: Field(default=10.0, gt=0, le=30)`,
`temperature: Field(default=1.0, gt=0, le=2.0)`,
`cfg_coef: Field(default=3.0, gt=0, le=10.0)`,
`model_size: Field(default="small", pattern="^(small|medium|large)$")`. -/
def validateModal (r : RawRequest) : Except String GenerateRequest :=
  match r.prompt with
  | none => Except.error "prompt: field required"
  | some p =>
    if 1 ≤ p.length ∧ p.length ≤ 500 then
      let d := r.duration.getD 10
      if 0 < d ∧ d ≤ 30 then
        let t := r.temperature.getD 1
        if 0 < t ∧ t ≤ 2 then
          let c := r.cfg_coef.getD 3
          if 0 < c ∧ c ≤ 10 then
            let m := r.model_size.getD "small"
            if m = "small" ∨ m = "medium" ∨ m = "large" then
              Except.ok
                { prompt := p, duration := d, temperature := t,
                  cfg_coef := c, model_size := m }
            else Except.error "model_size: string should match pattern"
          else Except.error "cfg_coef: out of range"
        else Except.error "temperature: out of range"
      else Except.error "duration: out of range"
    else Except.error "prompt: length out of range"

/-- Validation of `production_service.GenerateRequest(**request_data)`:
`prompt: Field(..., min_length=1, max_length=500)`,
`duration: Field(default=10.0, gt=0, le=30)`,
`model_size: Field(default="small", pattern="^(small|medium|large)$")`.
The payload's `temperature`, `top_k`, `top_p` and `cfg_coef` keys are not
declared by this model and are dropped. -/
def validateProd (r : RawRequest) : Except String ProdRequest :=
  match r.prompt with
  | none => Except.error "prompt: field required"
  | some p =>
    if 1 ≤ p.length ∧ p.length ≤ 500 then
      let d := r.duration.getD 10
      if 0 < d ∧ d ≤ 30 then
        let m := r.model_size.getD "small"
        if m = "small" ∨ m = "medium" ∨ m = "large" then
          Except.ok { prompt := p, duration := d, model_size := m }
        else Except.error "model_size: string should match pattern"
      else Except.error "duration: out of range"
    else Except.error "prompt: length out of range"

/-- `true` exactly on `Except.ok`. -/
def exceptIsOk {α : Type} : Except String α → Bool
| Except.ok _ => true
| Except.error _ => false

/-- Maximum absolute sample magnitude, `audio_tensor.abs().max()` (with 0 for
an empty sample list). -/
def maxAbs (w : List ℚ) : ℚ := w.foldr (fun x m => max |x| m) 0

/-- Peak normalization as written in `modal_service.py` lines 120-122 and
`production_service.py` lines 133-135:
`if audio.abs().max() > 0: audio = audio / audio.abs().max()`. -/
def normalizeAudio (w : List ℚ) : List ℚ :=
  if 0 < maxAbs w then w.map (fun x => x / maxAbs w) else w

/-- Python `int()` applied to a rational: truncation toward zero. -/
def pyInt (q : ℚ) : ℤ := if 0 ≤ q then ⌊q⌋ else ⌈q⌉

/-- Outcomes of the external collaborators during one request, plus the
waveform the model would produce and its native sample rate
(`model.sample_rate` / `model.config.audio_encoder.sampling_rate`). -/
structure SvcEnv where
  loadOk : Bool
  genOk : Bool
  loadErr : String := "load failed"
  genErr : String := "generation failed"
  genWav : List ℚ := []
  sampleRate : ℕ := 32000
deriving DecidableEq, Repr

/-- Observable outcome of one `modal_service.generate` invocation. -/
structure ModalRun where
  response : JObj
  loads : ℕ
  modelName : Option String
  artifactSamples : List ℚ
  artifactRate : ℕ
deriving DecidableEq, Repr

/-- `modal_service.py` `generate(request_data)`: validate; resolve the HF
model name with `model_map.get(req.model_size, "facebook/musicgen-small")`;
load via `MusicGen.get_pretrained` (one load per invocation, there is no
module-level model cache); generate; peak-normalize; serialize to WAV at
`model.sample_rate`; return the base64 payload.  Any exception is caught and
returned as `{"success": False, "error": str(e)}`. -/
def modalGenerate (raw : RawRequest) (env : SvcEnv) : ModalRun :=
  match validateModal raw with
  | Except.error e =>
    { response := [("success", JVal.b false), ("error", JVal.s e)],
      loads := 0, modelName := none, artifactSamples := [], artifactRate := 0 }
  | Except.ok req =>
    let name := (modelNameMap req.model_size).getD "facebook/musicgen-small"
    if env.loadOk then
      if env.genOk then
        let audio := normalizeAudio env.genWav
        { response :=
            [("success", JVal.b true),
             ("audio_data", JVal.audio audio env.sampleRate),
             ("format", JVal.s "wav"),
             ("duration", JVal.num req.duration),
             ("prompt", JVal.s req.prompt),
             ("model", JVal.s req.model_size)],
          loads := 1, modelName := some name,
          artifactSamples := audio, artifactRate := env.sampleRate }
      else
        { response := [("success", JVal.b false), ("error", JVal.s env.genErr)],
          loads := 1, modelName := some name,
          artifactSamples := [], artifactRate := 0 }
    else
      { response := [("success", JVal.b false), ("error", JVal.s env.loadErr)],
        loads := 1, modelName := some name,
        artifactSamples := [], artifactRate := 0 }

/-- The generation call issued by `production_service.py`:
`model.generate(**inputs, max_new_tokens=int(req.duration * 50),
do_sample=True, guidance_scale=3.0)`. -/
structure GenCall where
  inputsPrompt : String
  maxNewTokens : ℤ
  doSample : Bool
  guidanceScale : ℚ
deriving DecidableEq, Repr

/-- Observable outcome of one `production_service.generate_music` invocation. -/
structure ProdRun where
  response : JObj
  loads : ℕ
  modelName : Option String
  genCall : Option GenCall
  artifactSamples : List ℚ
  artifactRate : ℕ
deriving DecidableEq, Repr

/-- `production_service.py` `generate_music(request_data)`: validate; resolve
the model name by direct dictionary indexing `model_map[req.model_size]`
(a missing key would raise and be caught); load processor and model (one load
per invocation, no module-level cache); issue the generation call with
`do_sample=True`, `guidance_scale=3.0` and `max_new_tokens=int(duration*50)`;
peak-normalize; serialize to WAV at the model's sampling rate; return base64
payload plus `sample_rate`.  Any exception is caught and returned as
`{"success": False, "error": str(e)}`. -/
def prodGenerateMusic (raw : RawRequest) (env : SvcEnv) : ProdRun :=
  match validateProd raw with
  | Except.error e =>
    { response := [("success", JVal.b false), ("error", JVal.s e)],
      loads := 0, modelName := none, genCall := none,
      artifactSamples := [], artifactRate := 0 }
  | Except.ok req =>
    match modelNameMap req.model_size with
    | none =>
      { response := [("success", JVal.b false), ("error", JVal.s "KeyError")],
        loads := 0, modelName := none, genCall := none,
        artifactSamples := [], artifactRate := 0 }
    | some name =>
      if env.loadOk then
        let call : GenCall :=
          { inputsPrompt := req.prompt,
            maxNewTokens := pyInt (req.duration * 50),
            doSample := true, guidanceScale := 3 }
        if env.genOk then
          let audio := normalizeAudio env.genWav
          { response :=
              [("success", JVal.b true),
               ("audio_data", JVal.audio audio env.sampleRate),
               ("format", JVal.s "wav"),
               ("duration", JVal.num req.duration),
               ("sample_rate", JVal.num (env.sampleRate : ℚ)),
               ("prompt", JVal.s req.prompt),
               ("model", JVal.s req.model_size)],
            loads := 1, modelName := some name, genCall := some call,
            artifactSamples := audio, artifactRate := env.sampleRate }
        else
          { response := [("success", JVal.b false), ("error", JVal.s env.genErr)],
            loads := 1, modelName := some name, genCall := some call,
            artifactSamples := [], artifactRate := 0 }
      else
        { response := [("success", JVal.b false), ("error", JVal.s env.loadErr)],
          loads := 1, modelName := some name, genCall := none,
          artifactSamples := [], artifactRate := 0 }

/-- Environment for `music_generation.generate_music`: collaborator outcomes
for model load, generation, `torchaudio.save` to the temp file, and the R2
upload, plus the generated waveform, the model's sample rate and the R2
configuration from the process environment. -/
structure MGEnv where
  loadOk : Bool
  genOk : Bool
  saveOk : Bool
  uploadOk : Bool
  loadErr : String := "load failed"
  genErr : String := "generation failed"
  saveErr : String := "save failed"
  genWav : List ℚ := []
  sampleRate : ℕ := 32000
  bucket : String := "bucket"
  account : String := "account"
deriving DecidableEq, Repr

/-- Observable outcome of one `music_generation.generate_music` invocation:
the JSON body (`model_dump()` of the response model), the number of model
loads executed, the resolved model name, whether the temporary WAV file was
created and whether it still exists when the request completes, the samples
and rate written to it, and whether the upload succeeded. -/
structure MGRun where
  response : JObj
  loads : ℕ
  modelName : Option String
  tempCreated : Bool
  tempRemains : Bool
  savedSamples : List ℚ
  savedRate : ℕ
  uploaded : Bool
deriving DecidableEq, Repr

/-- `JVal` of an optional string, `null` for Python `None`. -/
def optStrVal : Option String → JVal
| some v => JVal.s v
| none => JVal.null

/-- `JVal` of an optional number, `null` for Python `None`. -/
def optNumVal : Option ℚ → JVal
| some v => JVal.num v
| none => JVal.null

/-- `MusicGenerationResponse(...).model_dump()`: all declared fields, with
`None` serialized as `null`. -/
def mgDump (r : MusicGenerationResponse) : JObj :=
  [("success", JVal.b r.success),
   ("audio_url", optStrVal r.audio_url),
   ("filename", optStrVal r.filename),
   ("duration", optNumVal r.duration),
   ("prompt", JVal.s r.prompt),
   ("error", optStrVal r.error)]

/-- The public R2 URL built on successful upload:
`https://{bucket}.{account}.r2.cloudflarestorage.com/{filename}`. -/
def mgUploadUrl (bucket account filename : String) : String :=
  "https://" ++ bucket ++ "." ++ account ++ ".r2.cloudflarestorage.com/" ++ filename

/-- `music_generation.py` `generate_music(request)`: no validation of any
field; the model name is `model_name_map.get(request.model_size,
"facebook/musicgen-medium")` (unknown sizes silently default to medium);
load via `MusicGen.get_pretrained` (one load per invocation, no cache);
generate; create a `NamedTemporaryFile(delete=False)`; `torchaudio.save` the
raw (un-normalized) waveform to it — an exception here propagates to the
outer handler with the temp file left on disk; if `output_filename` is set,
attempt the R2 upload inside its own try/except (failure is swallowed and
`audio_url` stays `None`); unlink the temp file; return the success response.
The outer handler catches any exception and returns
`MusicGenerationResponse(success=False, prompt=..., error=...)`. -/
def mgGenerateMusic (req : MusicGenerationRequest) (env : MGEnv) : MGRun :=
  let name := (modelNameMap req.model_size).getD "facebook/musicgen-medium"
  if env.loadOk then
    if env.genOk then
      if env.saveOk then
        let url : Option String :=
          match req.output_filename with
          | some f =>
            if env.uploadOk then some (mgUploadUrl env.bucket env.account f)
            else none
          | none => none
        { response :=
            mgDump
              { success := true, audio_url := url,
                filename := req.output_filename,
                duration := some req.duration,
                prompt := req.prompt, error := none },
          loads := 1, modelName := some name,
          tempCreated := true, tempRemains := false,
          savedSamples := env.genWav, savedRate := env.sampleRate,
          uploaded := req.output_filename.isSome && env.uploadOk }
      else
        { response :=
            mgDump { success := false, prompt := req.prompt,
                     error := some env.saveErr },
          loads := 1, modelName := some name,
          tempCreated := true, tempRemains := true,
          savedSamples := [], savedRate := 0, uploaded := false }
    else
      { response :=
          mgDump { success := false, prompt := req.prompt,
                   error := some env.genErr },
        loads := 1, modelName := some name,
        tempCreated := false, tempRemains := false,
        savedSamples := [], savedRate := 0, uploaded := false }
  else
    { response :=
        mgDump { success := false, prompt := req.prompt,
                 error := some env.loadErr },
      loads := 1, modelName := some name,
      tempCreated := false, tempRemains := false,
      savedSamples := [], savedRate := 0, uploaded := false }

/-- Key list of a modal_service success body. -/
def modalSuccessKeys : List String :=
  ["success", "audio_data", "format", "duration", "prompt", "model"]

/-- Key list of a production_service success body. -/
def prodSuccessKeys : List String :=
  ["success", "audio_data", "format", "duration", "sample_rate", "prompt", "model"]

/-- Key list of every caught-exception body: `{"success": False, "error": e}`. -/
def failureKeys : List String := ["success", "error"]

/-- Key list of every `music_generation` body (`model_dump` of the response
model always serializes all six declared fields). -/
def mgResponseKeys : List String :=
  ["success", "audio_url", "filename", "duration", "prompt", "error"]

/-! ### Concrete requests and environments used as test inputs -/

/-- First of two cold-cache production requests for the medium model. -/
def c1RawA : RawRequest :=
  { prompt := some "first", duration := some 5, model_size := some "medium" }

/-- Second of two cold-cache production requests for the medium model. -/
def c1RawB : RawRequest :=
  { prompt := some "second", duration := some 5, model_size := some "medium" }

/-- Healthy environment for the two medium requests. -/
def c1Env : SvcEnv := { loadOk := true, genOk := true, genWav := [1/2] }

/-- A valid modal_service request, resolved twice in sequence. -/
def c2Raw : RawRequest :=
  { prompt := some "x", duration := some 5, model_size := some "small" }

/-- Healthy environment for the repeated modal request. -/
def c2Env : SvcEnv := { loadOk := true, genOk := true, genWav := [1/2] }

/-- A music_generation request with duration 45, outside (0, 30]. -/
def c4Request : MusicGenerationRequest := { prompt := "x", duration := 45 }

/-- Healthy environment for the out-of-range-duration request. -/
def c4Env : MGEnv :=
  { loadOk := true, genOk := true, saveOk := true, uploadOk := true,
    genWav := [1/2] }

/-- An invalid payload (duration 45) for the validated services. -/
def c4Raw : RawRequest := { prompt := some "x", duration := some 45 }

/-- A payload that fails only modal_service validation: temperature 5 is
outside (0, 2], while production_service does not declare the temperature
field and accepts the payload. -/
def c4RawT : RawRequest :=
  { prompt := some "x", duration := some 5, temperature := some 5 }

/-- Healthy service environment for the rejection tests. -/
def c4SvcEnv : SvcEnv := { loadOk := true, genOk := true, genWav := [1/2] }

/-- A music_generation request that asks for persistence to "a.wav". -/
def c5Request : MusicGenerationRequest :=
  { prompt := "piano", output_filename := some "a.wav" }

/-- Environment in which generation succeeds but the R2 upload fails
(e.g. invalid credentials). -/
def c5Env : MGEnv :=
  { loadOk := true, genOk := true, saveOk := true, uploadOk := false,
    genWav := [1/2, -1/4] }

/-- A music_generation request with no output name. -/
def c6Request : MusicGenerationRequest := { prompt := "x" }

/-- Healthy environment whose generated waveform has peak 1/2. -/
def c6Env : MGEnv :=
  { loadOk := true, genOk := true, saveOk := true, uploadOk := false,
    genWav := [1/2] }

/-- A valid modal payload relying on all field defaults except the prompt. -/
def c6Raw : RawRequest := { prompt := some "x" }

/-- Healthy service environment with a non-silent waveform. -/
def c6SvcEnv : SvcEnv := { loadOk := true, genOk := true, genWav := [1/2, -1/4] }

/-- A valid modal payload. -/
def c7Raw : RawRequest := { prompt := some "x" }

/-- Healthy service environment. -/
def c7Env : SvcEnv := { loadOk := true, genOk := true, genWav := [1/2] }

/-- A valid payload accepted by both validated services. -/
def c8Raw : RawRequest := { prompt := some "x", duration := some 5 }

/-- Healthy service environment with native sample rate 32000. -/
def c8Env : SvcEnv :=
  { loadOk := true, genOk := true, genWav := [1/2], sampleRate := 32000 }

/-- A music_generation request whose audio save step will fail. -/
def c9Request : MusicGenerationRequest :=
  { prompt := "x", output_filename := some "a.wav" }

/-- Environment in which `torchaudio.save` raises after the temporary file
has been created. -/
def c9Env : MGEnv :=
  { loadOk := true, genOk := true, saveOk := false, uploadOk := true,
    genWav := [1/2] }

/-- A production payload with one set of sampling parameters. -/
def c10RawA : RawRequest :=
  { prompt := some "x", duration := some 4, temperature := some (1/2),
    cfg_coef := some 7, top_k := some 50, top_p := some (9/10),
    model_size := some "medium" }

/-- The same payload with entirely different sampling parameters. -/
def c10RawB : RawRequest :=
  { prompt := some "x", duration := some 4, temperature := some 2,
    cfg_coef := some 1, top_k := some 9, top_p := some (1/10),
    model_size := some "medium" }

/-- The validated form shared by both sampling payloads. -/
def c10Req : ProdRequest := { prompt := "x", duration := 4, model_size := "medium" }

/-- Healthy service environment for the sampling-parameter comparison. -/
def c10Env : SvcEnv := { loadOk := true, genOk := true, genWav := [1/2] }

/-! ### Helper lemmas about the embedded definitions -/

theorem maxAbs_nil : maxAbs [] = 0 := rfl

theorem maxAbs_cons (a : ℚ) (t : List ℚ) : maxAbs (a :: t) = max |a| (maxAbs t) := rfl

theorem maxAbs_nonneg (w : List ℚ) : 0 ≤ maxAbs w := by
  induction w with
  | nil => exact le_refl 0
  | cons a t ih => exact le_trans ih (le_max_right _ _)

theorem abs_le_maxAbs {x : ℚ} {w : List ℚ} (h : x ∈ w) : |x| ≤ maxAbs w := by
  induction w with
  | nil => cases h
  | cons a t ih =>
    rcases List.mem_cons.mp h with h1 | h2
    · rw [h1, maxAbs_cons]; exact le_max_left _ _
    · exact le_trans (ih h2) (le_max_right _ _)

theorem maxAbs_map_div (w : List ℚ) (m : ℚ) (hm : 0 < m) :
    maxAbs (w.map (fun x => x / m)) = maxAbs w / m := by
  induction w with
  | nil => simp [maxAbs]
  | cons a t ih =>
    rw [List.map_cons, maxAbs_cons, maxAbs_cons, ih, abs_div, abs_of_pos hm,
      max_div_div_right (le_of_lt hm)]

theorem normalizeAudio_peak {w : List ℚ} (h : 0 < maxAbs w) :
    maxAbs (normalizeAudio w) = 1 := by
  rw [normalizeAudio, if_pos h, maxAbs_map_div w _ h, div_self (ne_of_gt h)]

theorem normalizeAudio_silent {w : List ℚ} (h : ¬ 0 < maxAbs w) :
    normalizeAudio w = w := by
  rw [normalizeAudio, if_neg h]

theorem maxAbs_eq_zero_all_zero {w : List ℚ} (h : maxAbs w = 0) :
    ∀ x ∈ w, x = 0 := by
  intro x hx
  have h1 : |x| ≤ 0 := h ▸ abs_le_maxAbs hx
  have h2 : |x| = 0 := le_antisymm h1 (abs_nonneg x)
  exact abs_eq_zero.mp h2

theorem validateProd_ok_iff (raw : RawRequest) :
    (∃ req, validateProd raw = Except.ok req) ↔
      ((∃ p, raw.prompt = some p ∧ 1 ≤ p.length ∧ p.length ≤ 500) ∧
       (0 < raw.duration.getD 10 ∧ raw.duration.getD 10 ≤ 30) ∧
       (raw.model_size.getD "small" = "small" ∨
        raw.model_size.getD "small" = "medium" ∨
        raw.model_size.getD "small" = "large")) := by
  constructor
  · rintro ⟨req, hreq⟩
    unfold validateProd at hreq
    cases hp : raw.prompt with
    | none => rw [hp] at hreq; exact absurd hreq (by simp)
    | some p =>
      rw [hp] at hreq
      dsimp only at hreq
      split_ifs at hreq with h1 h2 h3
      · exact ⟨⟨p, rfl, h1.1, h1.2⟩, h2, h3⟩
  · rintro ⟨⟨p, hp, hl1, hl2⟩, hd, hm⟩
    refine ⟨{ prompt := p, duration := raw.duration.getD 10,
              model_size := raw.model_size.getD "small" }, ?_⟩
    unfold validateProd
    rw [hp]
    dsimp only
    rw [if_pos ⟨hl1, hl2⟩, if_pos hd, if_pos hm]

theorem validateProd_ok_model_size {raw : RawRequest} {req : ProdRequest}
    (h : validateProd raw = Except.ok req) :
    req.model_size = "small" ∨ req.model_size = "medium" ∨
      req.model_size = "large" := by
  unfold validateProd at h
  cases hp : raw.prompt with
  | none => rw [hp] at h; exact absurd h (by simp)
  | some p =>
    rw [hp] at h
    dsimp only at h
    split_ifs at h with h1 h2 h3
    · cases h
      exact h3

theorem modelNameMap_of_valid {s : String}
    (h : s = "small" ∨ s = "medium" ∨ s = "large") :
    ∃ n, modelNameMap s = some n := by
  rcases h with h | h | h <;> rw [h] <;> exact ⟨_, rfl⟩

theorem validateProd_only_reads_core (raw1 raw2 : RawRequest)
    (hp : raw1.prompt = raw2.prompt) (hd : raw1.duration = raw2.duration)
    (hm : raw1.model_size = raw2.model_size) :
    validateProd raw1 = validateProd raw2 := by
  unfold validateProd
  rw [hp, hd, hm]

/-! ### Claim C1 -/

/-- Claim C1 as stated is false on this code: there is no model cache and no
single-flight coordination anywhere in the repository — each endpoint
invocation calls `MusicGen.get_pretrained` / `from_pretrained` itself and no
module-level state links two invocations, so a concurrent execution of two
requests is just two independent evaluations.  Two cold requests for
`model_size = "medium"` both succeed, but two loads occur, not one. -/
theorem c1_counterexample :
    jLookup (prodGenerateMusic c1RawA c1Env).response "success" =
      some (JVal.b true) ∧
    jLookup (prodGenerateMusic c1RawB c1Env).response "success" =
      some (JVal.b true) ∧
    (prodGenerateMusic c1RawA c1Env).loads +
      (prodGenerateMusic c1RawB c1Env).loads = 2 ∧
    (prodGenerateMusic c1RawA c1Env).loads +
      (prodGenerateMusic c1RawB c1Env).loads ≠ 1 := by decide

/-- Claim C1, amended: every production_service invocation that passes
validation performs exactly one underlying model load of its own, so N
requests (concurrent or not) perform N loads; no handle is ever shared
between callers. -/
theorem c1_each_call_loads_once (raw : RawRequest) (env : SvcEnv)
    (req : ProdRequest) (h : validateProd raw = Except.ok req) :
    (prodGenerateMusic raw env).loads = 1 := by
  obtain ⟨n, hn⟩ := modelNameMap_of_valid (validateProd_ok_model_size h)
  cases hl : env.loadOk <;> cases hg : env.genOk <;>
    simp [prodGenerateMusic, h, hn, hl, hg]

/-- Claim C1 amended theorem instantiated at the first medium request. -/
theorem c1_each_call_loads_once_witness :
    validateProd c1RawA = Except.ok
      { prompt := "first", duration := 5, model_size := "medium" } ∧
    (prodGenerateMusic c1RawA c1Env).loads = 1 :=
  ⟨rfl, c1_each_call_loads_once c1RawA c1Env _ rfl⟩

/-! ### Claim C2 -/

/-- Claim C2 as stated is false on this code: `modal_service.generate` keeps
no module-level model handle, so resolving the same variant twice in
sequence means evaluating the same pure invocation twice; the second call
performs a full load again (its load count is 1, not 0), and in total two
loads occur. -/
theorem c2_counterexample :
    jLookup (modalGenerate c2Raw c2Env).response "success" =
      some (JVal.b true) ∧
    (modalGenerate c2Raw c2Env).loads = 1 ∧
    (modalGenerate c2Raw c2Env).loads + (modalGenerate c2Raw c2Env).loads
      = 2 := by decide

/-- Claim C2, amended: within one process the modal_service endpoint caches
nothing; every invocation with a valid request performs exactly one model
load, including repeated invocations for the same variant (the handle is
rebuilt, never fetched from a cache). -/
theorem c2_every_resolve_loads (raw : RawRequest) (env : SvcEnv)
    (req : GenerateRequest) (h : validateModal raw = Except.ok req) :
    (modalGenerate raw env).loads = 1 := by
  cases hl : env.loadOk <;> cases hg : env.genOk <;>
    simp [modalGenerate, h, hl, hg]

/-- Claim C2 amended theorem instantiated at the repeated modal request. -/
theorem c2_every_resolve_loads_witness :
    validateModal c2Raw = Except.ok
      { prompt := "x", duration := 5, temperature := 1, cfg_coef := 3,
        model_size := "small" } ∧
    (modalGenerate c2Raw c2Env).loads = 1 :=
  ⟨rfl, c2_every_resolve_loads c2Raw c2Env _ rfl⟩

/-! ### Claim C3 -/

/-- Claim C4 as stated is false on this code: the `music_generation.py`
endpoint performs no duration validation, so a request with duration 45
(outside (0, 30]) still reaches the model-loading layer — its load count is
1, not 0. -/
theorem c4_counterexample :
    ¬ (0 < c4Request.duration ∧ c4Request.duration ≤ 30) ∧
    (mgGenerateMusic c4Request c4Env).loads = 1 := by decide

/-- Claim C4, amended: in each of modal_service and production_service
independently, any payload that its own pydantic validation rejects
(duration outside (0, 30] or any other of its rules) produces a failure
response with zero model loads — validation precedes the model-loading
layer there; the music_generation endpoint has no such guard. -/
theorem c4_reject_before_resolution (raw : RawRequest) (menv penv : SvcEnv) :
    (exceptIsOk (validateModal raw) = false →
      (modalGenerate raw menv).loads = 0) ∧
    (exceptIsOk (validateProd raw) = false →
      (prodGenerateMusic raw penv).loads = 0) := by
  constructor
  · intro h1
    cases hv : validateModal raw with
    | ok r => rw [hv] at h1; exact absurd h1 (by simp [exceptIsOk])
    | error e => simp [modalGenerate, hv]
  · intro h2
    cases hv : validateProd raw with
    | ok r => rw [hv] at h2; exact absurd h2 (by simp [exceptIsOk])
    | error e => simp [prodGenerateMusic, hv]

/-- Claim C4 amended theorem instantiated at two concrete payloads: one
(temperature 5) that fails only modal_service validation, and one
(duration 45) that fails production_service validation as well. -/
theorem c4_reject_before_resolution_witness :
    exceptIsOk (validateModal c4RawT) = false ∧
    (modalGenerate c4RawT c4SvcEnv).loads = 0 ∧
    exceptIsOk (validateProd c4Raw) = false ∧
    (prodGenerateMusic c4Raw c4SvcEnv).loads = 0 :=
  ⟨rfl, (c4_reject_before_resolution c4RawT c4SvcEnv c4SvcEnv).1 rfl,
    rfl, (c4_reject_before_resolution c4Raw c4SvcEnv c4SvcEnv).2 rfl⟩

/-! ### Claim C5 -/

/-- Claim C5 as stated is false on this code: when the R2 upload fails,
`music_generation.generate_music` does report overall success with a null
`audio_url`, but no audio data is present — the response model has no audio
payload field at all (neither "audio_data" nor "audioData" is a key of the
body), so the generated audio is unreachable by the caller. -/
theorem c5_counterexample :
    jLookup (mgGenerateMusic c5Request c5Env).response "success" =
      some (JVal.b true) ∧
    jLookup (mgGenerateMusic c5Request c5Env).response "audio_url" =
      some JVal.null ∧
    "audio_data" ∉ jKeys (mgGenerateMusic c5Request c5Env).response ∧
    "audioData" ∉ jKeys (mgGenerateMusic c5Request c5Env).response := by decide

/-- Claim C5, amended: for a request with an output name whose generation and
audio save succeed but whose upload fails, the outcome is still reported as
success with the persisted reference (`audio_url`) null and the temporary
file deleted; however the response carries no audio data — its keys are
exactly the six fields of `MusicGenerationResponse`, none of which holds the
generated audio, so the generation result itself is not returned. -/
theorem c5_upload_failure_nonfatal (req : MusicGenerationRequest)
    (env : MGEnv) (f : String) (hf : req.output_filename = some f)
    (hl : env.loadOk = true) (hg : env.genOk = true)
    (hs : env.saveOk = true) (hu : env.uploadOk = false) :
    jLookup (mgGenerateMusic req env).response "success" =
      some (JVal.b true) ∧
    jLookup (mgGenerateMusic req env).response "audio_url" =
      some JVal.null ∧
    (mgGenerateMusic req env).uploaded = false ∧
    (mgGenerateMusic req env).tempRemains = false ∧
    jKeys (mgGenerateMusic req env).response = mgResponseKeys := by
  simp [mgGenerateMusic, hf, hl, hg, hs, hu, mgDump, optStrVal, optNumVal,
    jKeys, jLookup, List.lookup, mgResponseKeys]

/-- Claim C5 amended theorem instantiated at the failing-credentials run. -/
theorem c5_upload_failure_nonfatal_witness :
    c5Request.output_filename = some "a.wav" ∧
    c5Env.loadOk = true ∧ c5Env.genOk = true ∧ c5Env.saveOk = true ∧
    c5Env.uploadOk = false ∧
    (jLookup (mgGenerateMusic c5Request c5Env).response "success" =
       some (JVal.b true) ∧
     jLookup (mgGenerateMusic c5Request c5Env).response "audio_url" =
       some JVal.null ∧
     (mgGenerateMusic c5Request c5Env).uploaded = false ∧
     (mgGenerateMusic c5Request c5Env).tempRemains = false ∧
     jKeys (mgGenerateMusic c5Request c5Env).response = mgResponseKeys) :=
  ⟨rfl, rfl, rfl, rfl, rfl,
    c5_upload_failure_nonfatal c5Request c5Env "a.wav" rfl rfl rfl rfl rfl⟩

/-! ### Claim C6 -/

/-- Claim C6 as stated is false on this code: the `music_generation.py`
pipeline performs no peak normalization — the waveform [1/2], whose peak
magnitude 1/2 is greater than zero, is written to the WAV file unscaled,
with peak 1/2 rather than 1. -/
theorem c6_counterexample :
    0 < maxAbs c6Env.genWav ∧
    (mgGenerateMusic c6Request c6Env).savedSamples = [1/2] ∧
    maxAbs (mgGenerateMusic c6Request c6Env).savedSamples = 1/2 ∧
    maxAbs (mgGenerateMusic c6Request c6Env).savedSamples ≠ 1 := by
  have h2 : (mgGenerateMusic c6Request c6Env).savedSamples = [1/2] := rfl
  have h1 : maxAbs [(1 : ℚ)/2] = 1/2 := by
    rw [maxAbs_cons, maxAbs_nil, abs_of_pos (by norm_num : (0 : ℚ) < 1/2),
      max_eq_left (by norm_num : (0 : ℚ) ≤ 1/2)]
  have h0 : maxAbs c6Env.genWav = 1/2 := h1
  exact ⟨by rw [h0]; norm_num, h2, by rw [h2]; exact h1,
    by rw [h2, h1]; norm_num⟩

/-- Claim C6, amended: in both modal_service and production_service the
encoded artifact is the peak-normalized waveform: when the maximum absolute
sample magnitude is positive the artifact is the input scaled by it and has
peak exactly 1, and a constant-zero waveform is passed through unscaled
(every encoded sample is 0, with no division by zero); the music_generation
endpoint, however, encodes the raw waveform without normalization. -/
theorem c6_peak_normalization (raw : RawRequest) (env : SvcEnv)
    (req : GenerateRequest) (preq : ProdRequest)
    (h : validateModal raw = Except.ok req)
    (hp : validateProd raw = Except.ok preq)
    (hl : env.loadOk = true) (hg : env.genOk = true) :
    (modalGenerate raw env).artifactSamples = normalizeAudio env.genWav ∧
    (prodGenerateMusic raw env).artifactSamples = normalizeAudio env.genWav ∧
    (0 < maxAbs env.genWav →
      (modalGenerate raw env).artifactSamples =
        env.genWav.map (fun x => x / maxAbs env.genWav) ∧
      (prodGenerateMusic raw env).artifactSamples =
        env.genWav.map (fun x => x / maxAbs env.genWav) ∧
      maxAbs (modalGenerate raw env).artifactSamples = 1 ∧
      maxAbs (prodGenerateMusic raw env).artifactSamples = 1) ∧
    (maxAbs env.genWav = 0 →
      (modalGenerate raw env).artifactSamples = env.genWav ∧
      (prodGenerateMusic raw env).artifactSamples = env.genWav ∧
      (∀ x ∈ (modalGenerate raw env).artifactSamples, x = 0) ∧
      (∀ x ∈ (prodGenerateMusic raw env).artifactSamples, x = 0)) := by
  obtain ⟨n, hn⟩ := modelNameMap_of_valid (validateProd_ok_model_size hp)
  have hem : (modalGenerate raw env).artifactSamples = normalizeAudio env.genWav := by
    simp [modalGenerate, h, hl, hg]
  have hep : (prodGenerateMusic raw env).artifactSamples = normalizeAudio env.genWav := by
    simp [prodGenerateMusic, hp, hn, hl, hg]
  refine ⟨hem, hep, fun hpos => ⟨?_, ?_, ?_, ?_⟩, fun hz => ⟨?_, ?_, ?_, ?_⟩⟩
  · rw [hem, normalizeAudio, if_pos hpos]
  · rw [hep, normalizeAudio, if_pos hpos]
  · rw [hem, normalizeAudio_peak hpos]
  · rw [hep, normalizeAudio_peak hpos]
  · rw [hem, normalizeAudio_silent (by rw [hz]; exact lt_irrefl 0)]
  · rw [hep, normalizeAudio_silent (by rw [hz]; exact lt_irrefl 0)]
  · rw [hem, normalizeAudio_silent (by rw [hz]; exact lt_irrefl 0)]
    exact maxAbs_eq_zero_all_zero hz
  · rw [hep, normalizeAudio_silent (by rw [hz]; exact lt_irrefl 0)]
    exact maxAbs_eq_zero_all_zero hz

/-- Claim C6 amended theorem instantiated at a payload both validators
accept and the waveform [1/2, -1/4]. -/
theorem c6_peak_normalization_witness :
    validateModal c6Raw = Except.ok
      { prompt := "x", duration := 10, temperature := 1, cfg_coef := 3,
        model_size := "small" } ∧
    validateProd c6Raw = Except.ok
      { prompt := "x", duration := 10, model_size := "small" } ∧
    c6SvcEnv.loadOk = true ∧ c6SvcEnv.genOk = true ∧
    ((modalGenerate c6Raw c6SvcEnv).artifactSamples =
       normalizeAudio c6SvcEnv.genWav ∧
     (prodGenerateMusic c6Raw c6SvcEnv).artifactSamples =
       normalizeAudio c6SvcEnv.genWav ∧
     (0 < maxAbs c6SvcEnv.genWav →
       (modalGenerate c6Raw c6SvcEnv).artifactSamples =
         c6SvcEnv.genWav.map (fun x => x / maxAbs c6SvcEnv.genWav) ∧
       (prodGenerateMusic c6Raw c6SvcEnv).artifactSamples =
         c6SvcEnv.genWav.map (fun x => x / maxAbs c6SvcEnv.genWav) ∧
       maxAbs (modalGenerate c6Raw c6SvcEnv).artifactSamples = 1 ∧
       maxAbs (prodGenerateMusic c6Raw c6SvcEnv).artifactSamples = 1) ∧
     (maxAbs c6SvcEnv.genWav = 0 →
       (modalGenerate c6Raw c6SvcEnv).artifactSamples = c6SvcEnv.genWav ∧
       (prodGenerateMusic c6Raw c6SvcEnv).artifactSamples = c6SvcEnv.genWav ∧
       (∀ x ∈ (modalGenerate c6Raw c6SvcEnv).artifactSamples, x = 0) ∧
       (∀ x ∈ (prodGenerateMusic c6Raw c6SvcEnv).artifactSamples, x = 0))) :=
  ⟨rfl, rfl, rfl, rfl,
    c6_peak_normalization c6Raw c6SvcEnv _ _ rfl rfl rfl rfl⟩

/-! ### Claim C7 -/

/-- Claim C7 as stated is false on this code: a successful
`modal_service.generate` body has exactly the keys success, audio_data,
format, duration, prompt and model — the sampleRate field required by the
claim is absent. -/
theorem c7_counterexample :
    jLookup (modalGenerate c7Raw c7Env).response "success" =
      some (JVal.b true) ∧
    jKeys (modalGenerate c7Raw c7Env).response =
      ["success", "audio_data", "format", "duration", "prompt", "model"] ∧
    "sample_rate" ∉ jKeys (modalGenerate c7Raw c7Env).response ∧
    "sampleRate" ∉ jKeys (modalGenerate c7Raw c7Env).response := by decide

/-- Claim C7, amended: every response of each endpoint is a well-formed JSON
object with an explicit boolean success field (all failure modes are caught
and returned as `{"success": false, "error": string}`), but the success
shapes differ by endpoint: production_service success bodies carry the seven
claimed fields (with key sample_rate), modal_service success bodies omit the
sample rate, and music_generation bodies always consist of the six fields
success, audio_url, filename, duration, prompt, error. -/
theorem c7_response_shapes (raw : RawRequest) (env : SvcEnv)
    (req : MusicGenerationRequest) (genv : MGEnv) :
    ((∃ b, jLookup (modalGenerate raw env).response "success" =
        some (JVal.b b)) ∧
     (jKeys (modalGenerate raw env).response = modalSuccessKeys ∨
      jKeys (modalGenerate raw env).response = failureKeys)) ∧
    ((∃ b, jLookup (prodGenerateMusic raw env).response "success" =
        some (JVal.b b)) ∧
     (jKeys (prodGenerateMusic raw env).response = prodSuccessKeys ∨
      jKeys (prodGenerateMusic raw env).response = failureKeys)) ∧
    ((∃ b, jLookup (mgGenerateMusic req genv).response "success" =
        some (JVal.b b)) ∧
     jKeys (mgGenerateMusic req genv).response = mgResponseKeys) := by
  refine ⟨⟨?_, ?_⟩, ⟨?_, ?_⟩, ⟨?_, ?_⟩⟩
  · cases hv : validateModal raw with
    | error e =>
      exact ⟨false, by simp [modalGenerate, hv, jLookup, List.lookup]⟩
    | ok r =>
      cases hl : env.loadOk with
      | false =>
        exact ⟨false, by simp [modalGenerate, hv, hl, jLookup, List.lookup]⟩
      | true =>
        cases hg : env.genOk with
        | false =>
          exact ⟨false, by simp [modalGenerate, hv, hl, hg, jLookup,
            List.lookup]⟩
        | true =>
          exact ⟨true, by simp [modalGenerate, hv, hl, hg, jLookup,
            List.lookup]⟩
  · cases hv : validateModal raw with
    | error e =>
      exact Or.inr (by simp [modalGenerate, hv, jKeys, failureKeys])
    | ok r =>
      cases hl : env.loadOk with
      | false =>
        exact Or.inr (by simp [modalGenerate, hv, hl, jKeys, failureKeys])
      | true =>
        cases hg : env.genOk with
        | false =>
          exact Or.inr (by simp [modalGenerate, hv, hl, hg, jKeys, failureKeys])
        | true =>
          exact Or.inl (by simp [modalGenerate, hv, hl, hg, jKeys,
            modalSuccessKeys])
  · cases hv : validateProd raw with
    | error e =>
      exact ⟨false, by simp [prodGenerateMusic, hv, jLookup, List.lookup]⟩
    | ok r =>
      cases hn : modelNameMap r.model_size with
      | none =>
        exact ⟨false, by simp [prodGenerateMusic, hv, hn, jLookup, List.lookup]⟩
      | some n =>
        cases hl : env.loadOk with
        | false =>
          exact ⟨false, by simp [prodGenerateMusic, hv, hn, hl, jLookup,
            List.lookup]⟩
        | true =>
          cases hg : env.genOk with
          | false =>
            exact ⟨false, by simp [prodGenerateMusic, hv, hn, hl, hg, jLookup,
              List.lookup]⟩
          | true =>
            exact ⟨true, by simp [prodGenerateMusic, hv, hn, hl, hg, jLookup,
              List.lookup]⟩
  · cases hv : validateProd raw with
    | error e =>
      exact Or.inr (by simp [prodGenerateMusic, hv, jKeys, failureKeys])
    | ok r =>
      cases hn : modelNameMap r.model_size with
      | none =>
        exact Or.inr (by simp [prodGenerateMusic, hv, hn, jKeys, failureKeys])
      | some n =>
        cases hl : env.loadOk with
        | false =>
          exact Or.inr (by simp [prodGenerateMusic, hv, hn, hl, jKeys,
            failureKeys])
        | true =>
          cases hg : env.genOk with
          | false =>
            exact Or.inr (by simp [prodGenerateMusic, hv, hn, hl, hg, jKeys,
              failureKeys])
          | true =>
            exact Or.inl (by simp [prodGenerateMusic, hv, hn, hl, hg, jKeys,
              prodSuccessKeys])
  · cases hl : genv.loadOk with
    | false =>
      exact ⟨false, by simp [mgGenerateMusic, hl, mgDump, jLookup, List.lookup]⟩
    | true =>
      cases hg : genv.genOk with
      | false =>
        exact ⟨false, by simp [mgGenerateMusic, hl, hg, mgDump, jLookup,
          List.lookup]⟩
      | true =>
        cases hs : genv.saveOk with
        | false =>
          exact ⟨false, by simp [mgGenerateMusic, hl, hg, hs, mgDump, jLookup,
            List.lookup]⟩
        | true =>
          exact ⟨true, by simp [mgGenerateMusic, hl, hg, hs, mgDump, jLookup,
            List.lookup]⟩
  · cases hl : genv.loadOk <;> cases hg : genv.genOk <;>
      cases hs : genv.saveOk <;>
      simp [mgGenerateMusic, hl, hg, hs, mgDump, jKeys, mgResponseKeys]

/-! ### Claim C8 -/

/-- Claim C8 as stated is false on this code: `modal_service.generate`
encodes the artifact at the handle's native sample rate but returns no
sample-rate field in its success body at all, so the returned sampleRate
cannot equal (or be) anything. -/
theorem c8_counterexample :
    (modalGenerate c8Raw c8Env).artifactRate = 32000 ∧
    jLookup (modalGenerate c8Raw c8Env).response "success" =
      some (JVal.b true) ∧
    jLookup (modalGenerate c8Raw c8Env).response "sample_rate" = none ∧
    jLookup (modalGenerate c8Raw c8Env).response "sampleRate" = none := by
  decide

/-- Claim C8, amended: the sample rate used to encode the artifact is the
model handle's native rate, unaltered, in both validated services, and
production_service also stamps exactly that rate into the sample_rate field
of its success body; modal_service omits the field from its response. -/
theorem c8_sample_rate_preserved (raw : RawRequest) (env : SvcEnv)
    (mreq : GenerateRequest) (preq : ProdRequest)
    (hm : validateModal raw = Except.ok mreq)
    (hp : validateProd raw = Except.ok preq)
    (hl : env.loadOk = true) (hg : env.genOk = true) :
    (modalGenerate raw env).artifactRate = env.sampleRate ∧
    (prodGenerateMusic raw env).artifactRate = env.sampleRate ∧
    jLookup (prodGenerateMusic raw env).response "sample_rate" =
      some (JVal.num (env.sampleRate : ℚ)) := by
  obtain ⟨n, hn⟩ := modelNameMap_of_valid (validateProd_ok_model_size hp)
  refine ⟨?_, ?_, ?_⟩
  · simp [modalGenerate, hm, hl, hg]
  · simp [prodGenerateMusic, hp, hn, hl, hg]
  · simp [prodGenerateMusic, hp, hn, hl, hg, jLookup, List.lookup]

/-- Claim C8 amended theorem instantiated at a valid request with native
sample rate 32000. -/
theorem c8_sample_rate_preserved_witness :
    validateModal c8Raw = Except.ok
      { prompt := "x", duration := 5, temperature := 1, cfg_coef := 3,
        model_size := "small" } ∧
    validateProd c8Raw = Except.ok
      { prompt := "x", duration := 5, model_size := "small" } ∧
    ((modalGenerate c8Raw c8Env).artifactRate = c8Env.sampleRate ∧
     (prodGenerateMusic c8Raw c8Env).artifactRate = c8Env.sampleRate ∧
     jLookup (prodGenerateMusic c8Raw c8Env).response "sample_rate" =
       some (JVal.num (c8Env.sampleRate : ℚ))) :=
  ⟨rfl, rfl, c8_sample_rate_preserved c8Raw c8Env _ _ rfl rfl rfl rfl⟩

/-! ### Claim C9 -/

/-- Claim C9 as stated is false on this code: if `torchaudio.save` raises
after the temporary file has been created, the exception propagates to the
outer handler, which returns the failure body without deleting the file —
the temporary file survives the request. -/
theorem c9_counterexample :
    (mgGenerateMusic c9Request c9Env).tempCreated = true ∧
    (mgGenerateMusic c9Request c9Env).tempRemains = true ∧
    jLookup (mgGenerateMusic c9Request c9Env).response "success" =
      some (JVal.b false) := by decide

/-- Claim C9, amended: on every exit path on which the audio save step
succeeds, the temporary file does not survive the request (this covers
success with and without upload, and upload failure); the temporary file is
created exactly when model load and generation both succeed, and an
exception between its creation and the cleanup (a failing save) leaves it on
disk. -/
theorem c9_temp_cleanup (req : MusicGenerationRequest) (env : MGEnv)
    (hs : env.saveOk = true) :
    (mgGenerateMusic req env).tempRemains = false ∧
    ((mgGenerateMusic req env).tempCreated = true ↔
      (env.loadOk = true ∧ env.genOk = true)) := by
  cases hl : env.loadOk <;> cases hg : env.genOk <;>
    simp [mgGenerateMusic, hl, hg, hs]

/-- Claim C9 amended theorem instantiated at the upload-failure run, on
which the temporary file was created and cleaned up. -/
theorem c9_temp_cleanup_witness :
    c6Env.saveOk = true ∧
    ((mgGenerateMusic c6Request c6Env).tempRemains = false ∧
     ((mgGenerateMusic c6Request c6Env).tempCreated = true ↔
       (c6Env.loadOk = true ∧ c6Env.genOk = true))) :=
  ⟨rfl, c9_temp_cleanup c6Request c6Env rfl⟩

/-! ### Claim C10 -/

/-- Claim C10: in production_service the payload fields temperature, top_k,
top_p and cfg_coef have no effect — the validated request type drops them,
so two payloads agreeing on prompt, duration and model_size produce
identical runs, and whenever the model is invoked the call carries
do_sample = true, guidance_scale = 3.0 and max_new_tokens = int(duration*50). -/
theorem c10_sampling_fields_ignored (raw1 raw2 : RawRequest) (env : SvcEnv)
    (req : ProdRequest) (hp : raw1.prompt = raw2.prompt)
    (hd : raw1.duration = raw2.duration)
    (hm : raw1.model_size = raw2.model_size)
    (hok : validateProd raw1 = Except.ok req) (hl : env.loadOk = true) :
    prodGenerateMusic raw1 env = prodGenerateMusic raw2 env ∧
    (prodGenerateMusic raw1 env).genCall =
      some { inputsPrompt := req.prompt,
             maxNewTokens := pyInt (req.duration * 50),
             doSample := true, guidanceScale := 3 } := by
  have hv := validateProd_only_reads_core raw1 raw2 hp hd hm
  constructor
  · unfold prodGenerateMusic
    rw [hv]
  · obtain ⟨n, hn⟩ := modelNameMap_of_valid (validateProd_ok_model_size hok)
    cases hg : env.genOk <;> simp [prodGenerateMusic, hok, hn, hl, hg]

/-- Claim C10 theorem instantiated at two payloads that differ in
temperature, cfg_coef, top_k and top_p only. -/
theorem c10_sampling_fields_ignored_witness :
    c10RawA.prompt = c10RawB.prompt ∧
    c10RawA.duration = c10RawB.duration ∧
    c10RawA.model_size = c10RawB.model_size ∧
    c10RawA.temperature ≠ c10RawB.temperature ∧
    c10RawA.cfg_coef ≠ c10RawB.cfg_coef ∧
    validateProd c10RawA = Except.ok c10Req ∧
    c10Env.loadOk = true ∧
    (prodGenerateMusic c10RawA c10Env = prodGenerateMusic c10RawB c10Env ∧
     (prodGenerateMusic c10RawA c10Env).genCall =
       some { inputsPrompt := c10Req.prompt,
              maxNewTokens := pyInt (c10Req.duration * 50),
              doSample := true, guidanceScale := 3 }) :=
  ⟨rfl, rfl, rfl, by norm_num [c10RawA, c10RawB],
    by norm_num [c10RawA, c10RawB], rfl, rfl,
    c10_sampling_fields_ignored c10RawA c10RawB c10Env c10Req rfl rfl rfl
      rfl rfl⟩
